import Mathlib

/-!
Verification of the gateway's authentication, session and request-admission
engine, shallowly embedded from the Go sources
(`apps/gateway/internal/{auth,config,db,middleware}` and the handler files).

Conventions of the embedding:
* machine integers and timestamps are `Int` (Go `time.Time` is integer
  nanoseconds; JWT numeric dates are integer seconds);
* Go maps are total functions into `Option` (or into `List` where the zero
  value of the Go map entry is an empty slice);
* the bcrypt primitive (`golang.org/x/crypto/bcrypt`) is abstracted as an
  oracle `check : String → String → Bool` passed to the login handler;
  the handler additionally reports how many times the oracle was invoked,
  mirroring the source's evaluation order including Go's short-circuit `||`;
* JWT serialisation (`golang-jwt/jwt/v5`) is abstracted structurally: a
  signed token is its claims together with the signing algorithm and the
  key used; verification recomputes exactly the checks the source performs
  (HMAC-family algorithm, matching secret, expiry).
-/

namespace Gateway

/-- A user row, from `internal/models` (`User`). -/
structure User where
  id : String
  username : String
  email : String
  passwordHash : String
  role : String
  active : Bool
  mfaEnabled : Bool
  mfaSecret : Option String
  backupCodes : List String
  createdAt : Int
deriving DecidableEq, Repr

/-- The configuration fields consumed by the auth service, from
`internal/config` (`Config`). -/
structure Config where
  environment : String
  jwtSecretKey : String
  jwtExpireMinutes : Int
  jwtRefreshExpireDays : Int
deriving DecidableEq, Repr

/-- `Config.JWTExpireDuration` in seconds. -/
def Config.jwtExpireSeconds (c : Config) : Int :=
  c.jwtExpireMinutes * 60

/-- `Config.JWTRefreshExpireDuration` in seconds. -/
def Config.jwtRefreshExpireSeconds (c : Config) : Int :=
  c.jwtRefreshExpireDays * 24 * 60 * 60

/-- JWT signing algorithms relevant to the gateway.  `CreateAccessToken` and
`CreateRefreshToken` always sign with HS256; `ValidateToken` accepts any
`*jwt.SigningMethodHMAC`. -/
inductive Alg
  | hs256
  | hs384
  | hs512
  | rs256
  | es256
  | algNone
deriving DecidableEq, Repr

/-- The type check `token.Method.(*jwt.SigningMethodHMAC)` in `ValidateToken`. -/
def Alg.isHMAC : Alg → Bool
  | .hs256 => true
  | .hs384 => true
  | .hs512 => true
  | _ => false

/-- JWT claims, from `internal/auth` (`Claims`): user id, email (also the
registered `sub`), and the registered timing claims the mint functions set.
There is no token-kind field in the source struct. -/
structure Claims where
  userID : String
  email : String
  sub : String
  exp : Int
  iat : Int
deriving DecidableEq, Repr

/-- A signed JWT, abstracted structurally: claims plus the algorithm and key
it was signed with (standing for the serialised, HMAC-signed string). -/
structure Token where
  claims : Claims
  alg : Alg
  key : String
deriving DecidableEq, Repr

/-- `Auth.CreateAccessToken`: claims carry the user id and email, expiry is
now + `JWTExpireDuration`, signed HS256 with the configured secret. -/
def createAccessToken (cfg : Config) (user : User) (now : Int) : Token :=
  { claims :=
      { userID := user.id
        email := user.email
        sub := user.email
        exp := now + cfg.jwtExpireSeconds
        iat := now }
    alg := Alg.hs256
    key := cfg.jwtSecretKey }

/-- `Auth.CreateRefreshToken`: identical to the access mint except the expiry
is now + `JWTRefreshExpireDuration`.  No kind marker is set. -/
def createRefreshToken (cfg : Config) (user : User) (now : Int) : Token :=
  { claims :=
      { userID := user.id
        email := user.email
        sub := user.email
        exp := now + cfg.jwtRefreshExpireSeconds
        iat := now }
    alg := Alg.hs256
    key := cfg.jwtSecretKey }

/-- `Auth.ValidateToken`: the keyfunc rejects non-HMAC methods; parsing
rejects a wrong signature (modelled as a key mismatch); jwt/v5 validation
rejects an expired token (valid iff now is strictly before `exp`).  On
success the claims are returned unchanged — no token-kind check exists. -/
def validateToken (cfg : Config) (tok : Token) (now : Int) : Except String Claims :=
  if ¬ tok.alg.isHMAC then Except.error "unexpected signing method"
  else if tok.key ≠ cfg.jwtSecretKey then Except.error "signature is invalid"
  else if ¬ (now < tok.claims.exp) then Except.error "token is expired"
  else Except.ok tok.claims

/-- `DB.GetUserByID` over an in-memory table: `SELECT … WHERE id = $1`
returns the row regardless of its `active` column. -/
def getUserByID (db : List User) (id : String) : Option User :=
  db.find? (fun u => u.id == id)

/-- `DB.GetUserByEmail`: `SELECT … WHERE email = $1`. -/
def getUserByEmail (db : List User) (email : String) : Option User :=
  db.find? (fun u => u.email == email)

/-- The token-bearing parts of a request seen by `Auth.Middleware`: the
`Authorization: Bearer …` header and the `access_token` cookie, each already
parsed to the token it carries (string serialisation is abstracted). -/
structure MWRequest where
  bearer : Option Token
  cookie : Option Token

/-- `Auth.Middleware`, reduced to the identity it attaches to the request
context: header token first, cookie fallback; no token, a failed validation
or an unknown user id passes through with no identity; otherwise the user
returned by `GetUserByID` is attached — the source never inspects
`user.Active`. -/
def middlewareIdentity (cfg : Config) (db : List User) (r : MWRequest) (now : Int) :
    Option User :=
  let tokenVal : Option Token :=
    match r.bearer with
    | some t => some t
    | none => r.cookie
  match tokenVal with
  | none => none
  | some tok =>
    match validateToken cfg tok now with
    | Except.error _ => none
    | Except.ok claims => getUserByID db claims.userID

/-- `Auth.RequireAuth`: 401 when no identity was attached, otherwise the
request proceeds (modelled as status 200). -/
def requireAuthStatus (ident : Option User) : Nat :=
  match ident with
  | none => 401
  | some _ => 200

/-! ### The login handler (`Handler.Login`, handlers package) -/

/-- Body of `POST /auth/login` (`models.LoginRequest`), after validation. -/
structure LoginRequest where
  email : String
  password : String
deriving DecidableEq, Repr

/-- The `access_token` cookie the login handler sets. -/
structure Cookie where
  name : String
  value : Token
  httpOnly : Bool
  maxAge : Int
deriving DecidableEq, Repr

/-- `models.TokenResponse`. -/
structure TokenResponse where
  accessToken : Token
  tokenType : String
  refreshToken : Token
  expiresIn : Int
deriving DecidableEq, Repr

/-- Observable outcome of `Handler.Login`, instrumented with the number of
`auth.CheckPassword` (bcrypt) invocations the handler performed. -/
structure LoginResult where
  status : Nat
  errorCode : Option String
  body : Option TokenResponse
  cookie : Option Cookie
  bcryptCalls : Nat
deriving DecidableEq, Repr

/-- The fixed fake bcrypt hash literal assigned by `Handler.Login` when no
user row matches the email. -/
def fakeBcryptHash : String :=
  "$2a$10$XXXXXXXXXXXXXXXXXXXXXXXXXXXXXXXXXXXXXXXXXXXXXXXXXXXX"

/-- `Handler.Login`.  `check` is the bcrypt oracle (`auth.CheckPassword`).
`GetUserByEmail` returns a non-nil error exactly when no row matches, so in
the source condition `err != nil || !auth.CheckPassword(req.Password,
passwordHash)` the Go `||` short-circuits: `CheckPassword` is evaluated only
when the user was found.  The pair `(failed, calls)` reproduces that
evaluation order; `passwordHash` is computed exactly as in the source even
though the fake-hash value is then dead on the not-found path. -/
def login (cfg : Config) (check : String → String → Bool) (db : List User)
    (req : LoginRequest) (now : Int) : LoginResult :=
  let user := getUserByEmail db req.email
  let passwordHash : String :=
    match user with
    | some u => u.passwordHash
    | none => fakeBcryptHash
  let failedCalls : Bool × Nat :=
    match user with
    | none => (true, 0)
    | some _ => (¬ check req.password passwordHash, 1)
  if failedCalls.fst then
    { status := 401
      errorCode := some "invalid_credentials"
      body := none
      cookie := none
      bcryptCalls := failedCalls.snd }
  else
    match user with
    | none =>
      { status := 401
        errorCode := some "invalid_credentials"
        body := none
        cookie := none
        bcryptCalls := failedCalls.snd }
    | some u =>
      let accessToken := createAccessToken cfg u now
      let refreshToken := createRefreshToken cfg u now
      { status := 200
        errorCode := none
        body := some
          { accessToken := accessToken
            tokenType := "bearer"
            refreshToken := refreshToken
            expiresIn := cfg.jwtExpireMinutes * 60 }
        cookie := some
          { name := "access_token"
            value := accessToken
            httpOnly := true
            maxAge := cfg.jwtExpireMinutes * 60 }
        bcryptCalls := failedCalls.snd }

/-! ### The OAuth state store (`OAuthStateStore`, auth package) -/

/-- `10 * time.Minute` in nanoseconds. -/
def tenMinutesNs : Int := 600000000000

/-- The in-memory `map[string]time.Time` of `OAuthStateStore`: each stored
state maps to its expiry instant. -/
def OAuthStates : Type := String → Option Int

/-- A store with no states. -/
def emptyStates : OAuthStates := fun _ => none

/-- `OAuthStateStore.Store`: `s.states[state] = time.Now().Add(10*time.Minute)`. -/
def storeState (s : OAuthStates) (state : String) (now : Int) : OAuthStates :=
  fun k => if k = state then some (now + tenMinutesNs) else s k

/-- `OAuthStateStore.Validate`: missing key yields false; otherwise the key
is deleted and the result is whether now is strictly before the stored
expiry (`time.Now().Before(exp)`). -/
def validateState (s : OAuthStates) (state : String) (now : Int) :
    Bool × OAuthStates :=
  match s state with
  | none => (false, s)
  | some exp => (decide (now < exp), fun k => if k = state then none else s k)

/-! ### The sliding-window rate limiter (`RateLimiter.Middleware`,
middleware package) -/

/-- `time.Minute` in nanoseconds. -/
def minuteNs : Int := 60000000000

/-- The request fields the rate limiter reads. -/
structure RLRequest where
  path : String
  remoteAddr : String
  xForwardedFor : String
deriving DecidableEq, Repr

/-- Client key: `X-Forwarded-For` when non-empty, else `RemoteAddr`. -/
def clientKey (r : RLRequest) : String :=
  if r.xForwardedFor ≠ "" then r.xForwardedFor else r.remoteAddr

/-- The 429 response the limiter writes on exceed. -/
structure RLResponse where
  status : Nat
  retryAfter : Option String
  errorCode : Option String
deriving DecidableEq, Repr

/-- Status 429 with `Retry-After: 60` and code `rate_limit_exceeded`. -/
def resp429 : RLResponse :=
  { status := 429, retryAfter := some "60", errorCode := some "rate_limit_exceeded" }

/-- The limiter's `map[string][]time.Time`; a missing key reads as the empty
slice, as in Go. -/
def RLBuckets : Type := String → List Int

/-- The in-place trim: keep timestamps `t` with `t.After(now - time.Minute)`. -/
def trimBucket (now : Int) (b : List Int) : List Int :=
  b.filter (fun t => now - minuteNs < t)

/-- One bucket update: trim, then reject when `len(filtered) >=
requestsPerMin` (storing the trimmed bucket), else admit and append `now`. -/
def bucketStep (limit : Nat) (b : List Int) (now : Int) : Bool × List Int :=
  let filtered := trimBucket now b
  if limit ≤ filtered.length then (false, filtered)
  else (true, filtered ++ [now])

/-- `RateLimiter.Middleware` on a single request: `/health` and `/metrics`
bypass the limiter entirely; otherwise the client's bucket is trimmed and
checked, and on exceed the 429 response is written instead of passing the
request on (`none` response means the request was admitted to `next`). -/
def rlMiddleware (limit : Nat) (st : RLBuckets) (r : RLRequest) (now : Int) :
    Option RLResponse × RLBuckets :=
  if r.path = "/health" ∨ r.path = "/metrics" then (none, st)
  else
    let key := clientKey r
    let step := bucketStep limit (st key) now
    let st1 : RLBuckets := fun k => if k = key then step.snd else st k
    if step.fst then (none, st1) else (some resp429, st1)

/-- A sequence of requests through the limiter, oldest first. -/
def rlRun (limit : Nat) : RLBuckets → List (RLRequest × Int) →
    List (Option RLResponse) × RLBuckets
  | st, [] => ([], st)
  | st, (r, t) :: rest =>
    let fst := rlMiddleware limit st r t
    let rst := rlRun limit fst.snd rest
    (fst.fst :: rst.fst, rst.snd)

/-- A sequence of updates of a single client's bucket. -/
def bucketRun (limit : Nat) : List Int → List Int → List Bool × List Int
  | b, [] => ([], b)
  | b, t :: ts =>
    let s := bucketStep limit b t
    let r := bucketRun limit s.snd ts
    (s.fst :: r.fst, r.snd)

/-! ### The session registry (`SessionManager`, auth package) -/

/-- `auth.Session`. -/
structure Session where
  id : String
  userID : String
  deviceInfo : String
  ipAddress : String
  userAgent : String
  createdAt : Int
  lastActive : Int
  expiresAt : Int
deriving DecidableEq, Repr

/-- The non-nil part of a `SessionManager` (its configured session TTL; the
Redis client is the explicit `RedisState` below).  A nil `*SessionManager`
is `Option.none`. -/
structure SMData where
  sessionTTL : Int
deriving DecidableEq, Repr

/-- The Redis keyspace the session manager touches: `session:<sid>` keys
(value plus remaining TTL) and `user_sessions:<uid>` sets with their TTL. -/
structure RedisState where
  sessions : String → Option (Session × Int)
  userSessions : String → List String
  userSessionsTTL : String → Option Int

/-- `sessionKey`. -/
def sessionKey (sessionID : String) : String := "session:" ++ sessionID

/-- `userSessionsKey`. -/
def userSessionsKey (userID : String) : String := "user_sessions:" ++ userID

/-- Redis `SADD` on a set modelled as a duplicate-free list. -/
def saddList (l : List String) (x : String) : List String :=
  if x ∈ l then l else l ++ [x]

/-- `SessionManager.CreateSession`.  `newID` models the `uuid.New()` draw.
A nil manager returns `(nil, nil)` at once. -/
def createSession (m : Option SMData) (st : RedisState) (now : Int)
    (newID userID deviceInfo ipAddress userAgent : String) :
    (Option Session × Option String) × RedisState :=
  match m with
  | none => ((none, none), st)
  | some md =>
    let session : Session :=
      { id := newID
        userID := userID
        deviceInfo := deviceInfo
        ipAddress := ipAddress
        userAgent := userAgent
        createdAt := now
        lastActive := now
        expiresAt := now + md.sessionTTL }
    let st1 : RedisState :=
      { sessions := fun k =>
          if k = sessionKey newID then some (session, md.sessionTTL) else st.sessions k
        userSessions := fun k =>
          if k = userSessionsKey userID then
            saddList (st.userSessions (userSessionsKey userID)) newID
          else st.userSessions k
        userSessionsTTL := fun k =>
          if k = userSessionsKey userID then some md.sessionTTL
          else st.userSessionsTTL k }
    ((some session, none), st1)

/-- `SessionManager.GetSession`: a nil manager or a missing key returns
`(nil, nil)`; reads do not mutate. -/
def getSession (m : Option SMData) (st : RedisState) (sessionID : String) :
    Option Session × Option String :=
  match m with
  | none => (none, none)
  | some _ =>
    match st.sessions (sessionKey sessionID) with
    | none => (none, none)
    | some sv => (some sv.fst, none)

/-- `SessionManager.UpdateLastActive`: read the session, bump `LastActive`,
rewrite with the remaining TTL; a nil manager or a missing session is a
no-op with nil error. -/
def updateLastActive (m : Option SMData) (st : RedisState) (now : Int)
    (sessionID : String) : Option String × RedisState :=
  match m with
  | none => (none, st)
  | some _ =>
    match st.sessions (sessionKey sessionID) with
    | none => (none, st)
    | some sv =>
      let updated := { sv.fst with lastActive := now }
      (none,
        { st with sessions := fun k =>
            if k = sessionKey sessionID then some (updated, sv.snd) else st.sessions k })

/-- `SessionManager.ListUserSessions`: read the sid set, fetch each session,
prune stale sids from the set when the session key is gone. -/
def listUserSessions (m : Option SMData) (st : RedisState) (userID : String) :
    (Option (List Session) × Option String) × RedisState :=
  match m with
  | none => ((none, none), st)
  | some _ =>
    let ids := st.userSessions (userSessionsKey userID)
    let result := ids.foldl
      (fun (acc : List Session × RedisState) id =>
        match acc.snd.sessions (sessionKey id) with
        | some sv => (acc.fst ++ [sv.fst], acc.snd)
        | none =>
          (acc.fst,
            { acc.snd with userSessions := fun k =>
                if k = userSessionsKey userID then
                  (acc.snd.userSessions k).erase id
                else acc.snd.userSessions k }))
      ([], st)
    ((some result.fst, none), result.snd)

/-- `SessionManager.RevokeSession`: delete the session key and remove the
sid from the user's set. -/
def revokeSession (m : Option SMData) (st : RedisState)
    (sessionID userID : String) : Option String × RedisState :=
  match m with
  | none => (none, st)
  | some _ =>
    (none,
      { st with
          sessions := fun k =>
            if k = sessionKey sessionID then none else st.sessions k
          userSessions := fun k =>
            if k = userSessionsKey userID then
              (st.userSessions k).erase sessionID
            else st.userSessions k })

/-- `SessionManager.RevokeAllSessions`: delete every session of the user
except `exceptSessionID`, removing each deleted sid from the set. -/
def revokeAllSessions (m : Option SMData) (st : RedisState)
    (userID exceptSessionID : String) : Option String × RedisState :=
  match m with
  | none => (none, st)
  | some _ =>
    let ids := st.userSessions (userSessionsKey userID)
    let stFinal := ids.foldl
      (fun (acc : RedisState) id =>
        if id ≠ exceptSessionID then
          { acc with
              sessions := fun k =>
                if k = sessionKey id then none else acc.sessions k
              userSessions := fun k =>
                if k = userSessionsKey userID then
                  (acc.userSessions k).erase id
                else acc.userSessions k }
        else acc)
      st
    (none, stFinal)

/-- `SessionManager.RevokeAllUserSessions`: delete every session key of the
user and the whole sid set. -/
def revokeAllUserSessions (m : Option SMData) (st : RedisState)
    (userID : String) : Option String × RedisState :=
  match m with
  | none => (none, st)
  | some _ =>
    let ids := st.userSessions (userSessionsKey userID)
    let st1 := ids.foldl
      (fun (acc : RedisState) id =>
        { acc with sessions := fun k =>
            if k = sessionKey id then none else acc.sessions k })
      st
    (none,
      { st1 with
          userSessions := fun k =>
            if k = userSessionsKey userID then [] else st1.userSessions k
          userSessionsTTL := fun k =>
            if k = userSessionsKey userID then none else st1.userSessionsTTL k })

/-! ### Session HTTP handlers (`Handler.ListSessions` /
`Handler.RevokeSession` / `Handler.RevokeAllSessions`) -/

/-- The observable response of the three session endpoints (fields absent
from a given handler's JSON are `none`). -/
structure SessionsResp where
  status : Nat
  errorCode : Option String
  sessions : Option (List Session)
  message : Option String
  revoked : Option Bool
  revokedAll : Option Bool
deriving DecidableEq, Repr

/-- `GET /auth/sessions`: 401 without identity; with `h.sessions == nil` a
stubbed 200 with an empty list and the explanatory message; otherwise the
registry listing (whose model never fails). -/
def listSessionsHandler (user : Option User) (m : Option SMData)
    (st : RedisState) : SessionsResp × RedisState :=
  match user with
  | none =>
    ({ status := 401, errorCode := some "unauthorized", sessions := none,
       message := none, revoked := none, revokedAll := none }, st)
  | some u =>
    match m with
    | none =>
      ({ status := 200, errorCode := none, sessions := some [],
         message := some "Session management requires Redis",
         revoked := none, revokedAll := none }, st)
    | some md =>
      let r := listUserSessions (some md) st u.id
      ({ status := 200, errorCode := none,
         sessions := some (r.fst.fst.getD []),
         message := none, revoked := none, revokedAll := none }, r.snd)

/-- `DELETE /auth/sessions/{id}`: 401 without identity; 400 on an empty id
(chi never routes one); 503 `unavailable` when `h.sessions == nil`; else
revoke and 200. -/
def revokeSessionHandler (user : Option User) (m : Option SMData)
    (st : RedisState) (sessionID : String) : SessionsResp × RedisState :=
  match user with
  | none =>
    ({ status := 401, errorCode := some "unauthorized", sessions := none,
       message := none, revoked := none, revokedAll := none }, st)
  | some u =>
    if sessionID = "" then
      ({ status := 400, errorCode := some "missing_id", sessions := none,
         message := none, revoked := none, revokedAll := none }, st)
    else
      match m with
      | none =>
        ({ status := 503, errorCode := some "unavailable", sessions := none,
           message := none, revoked := none, revokedAll := none }, st)
      | some md =>
        let r := revokeSession (some md) st sessionID u.id
        ({ status := 200, errorCode := none, sessions := none,
           message := none, revoked := some true, revokedAll := none }, r.snd)

/-- `DELETE /auth/sessions`: 401 without identity; 503 `unavailable` when
`h.sessions == nil`; else revoke all but the `X-Session-ID` header's sid. -/
def revokeAllSessionsHandler (user : Option User) (m : Option SMData)
    (st : RedisState) (currentSessionID : String) : SessionsResp × RedisState :=
  match user with
  | none =>
    ({ status := 401, errorCode := some "unauthorized", sessions := none,
       message := none, revoked := none, revokedAll := none }, st)
  | some u =>
    match m with
    | none =>
      ({ status := 503, errorCode := some "unavailable", sessions := none,
         message := none, revoked := none, revokedAll := none }, st)
    | some md =>
      let r := revokeAllSessions (some md) st u.id currentSessionID
      ({ status := 200, errorCode := none, sessions := none,
         message := none, revoked := none, revokedAll := some true }, r.snd)

/-! ### The registration password validator (`validatePassword`, handlers
package) -/

/-- UTF-8 encoded size of one rune, as Go counts string bytes. -/
def utf8Size (c : Char) : Nat :=
  if c.toNat < 0x80 then 1
  else if c.toNat < 0x800 then 2
  else if c.toNat < 0x10000 then 3
  else 4

/-- Go `len(password)`: the UTF-8 byte length (equal to the rune count for
ASCII passwords). -/
def byteLen (password : List Char) : Nat :=
  (password.map utf8Size).sum

/-- `'A' <= char && char <= 'Z'`. -/
def isUpperGo (c : Char) : Bool := 'A' ≤ c && c ≤ 'Z'

/-- `'a' <= char && char <= 'z'`. -/
def isLowerGo (c : Char) : Bool := 'a' ≤ c && c ≤ 'z'

/-- `'0' <= char && char <= '9'`. -/
def isDigitGo (c : Char) : Bool := '0' ≤ c && c ≤ '9'

/-- Membership in the fixed special set of the source's `switch` case. -/
def isSpecialGo (c : Char) : Bool :=
  c = '!' || c = '@' || c = '#' || c = '$' || c = '%' ||
  c = '^' || c = '&' || c = '*' || c = '(' || c = ')' ||
  c = '-' || c = '_' || c = '+' || c = '='

/-- `validatePassword`: a `some` result is the rejection message, `none` is
acceptance.  The length check uses Go byte length; the four class flags are
folded over the runes (the source's `switch` cases are disjoint, so
per-class `any` is the same fold). -/
def validatePassword (password : List Char) : Option String :=
  if byteLen password < 8 then
    some "password must be at least 8 characters"
  else
    let hasUpper := password.any isUpperGo
    let hasLower := password.any isLowerGo
    let hasNumber := password.any isDigitGo
    let hasSpecial := password.any isSpecialGo
    if !hasUpper then
      some "password must contain at least one uppercase letter"
    else if !hasLower then
      some "password must contain at least one lowercase letter"
    else if !hasNumber then
      some "password must contain at least one number"
    else if !hasSpecial then
      some "password must contain at least one special character"
    else
      none

/-! ### Concrete fixtures used by counterexamples and witnesses -/

/-- A development configuration with the source's default TTLs. -/
def cfg0 : Config :=
  { environment := "dev"
    jwtSecretKey := "dev-secret-key-change-in-production"
    jwtExpireMinutes := 15
    jwtRefreshExpireDays := 7 }

/-- An ordinary active user. -/
def user0 : User :=
  { id := "u-1", username := "ops", email := "o@x.io", passwordHash := "H1"
    role := "user", active := true, mfaEnabled := false, mfaSecret := none
    backupCodes := [], createdAt := 0 }

/-- A user with MFA enabled. -/
def userMFA : User :=
  { user0 with id := "u-2", email := "m@x.io", mfaEnabled := true }

/-- A deactivated user. -/
def userInactive : User :=
  { user0 with id := "u-3", email := "i@x.io", active := false }

/-- A bcrypt oracle that accepts exactly the password `Abcd!234` against the
stored hash `H1` (such a pair exists for real bcrypt). -/
def checkH1 : String → String → Bool :=
  fun p h => p == "Abcd!234" && h == "H1"

/-- A cache with no keys. -/
def emptyRedis : RedisState :=
  { sessions := fun _ => none, userSessions := fun _ => [], userSessionsTTL := fun _ => none }

/-! ### C1 — token kinds -/

/-- C1 (counterexample).  The source's `Claims` carry no token-kind field and
`ValidateToken` never receives an expected kind: at the concrete input below,
a token minted by `CreateRefreshToken` passes `ValidateToken` and is accepted
by the auth middleware — the position where an access token is required — so
the claim that a refresh token is rejected there is false. -/
theorem refresh_token_accepted_as_access :
    validateToken cfg0 (createRefreshToken cfg0 user0 0) 0 =
      Except.ok (createRefreshToken cfg0 user0 0).claims ∧
    middlewareIdentity cfg0 [user0]
      { bearer := some (createRefreshToken cfg0 user0 0), cookie := none } 0 =
      some user0 := by
  constructor <;> rfl

/-- C1 (amended).  Tokens carry no kind claim: for every configuration with
positive TTLs, both mints produce claims that differ only in the `exp`
field, and `ValidateToken` — the only verification, used by every endpoint —
accepts either token. -/
theorem token_kinds_not_distinguished (cfg : Config) (u : User) (now : Int)
    (h1 : 0 < cfg.jwtExpireMinutes) (h2 : 0 < cfg.jwtRefreshExpireDays) :
    validateToken cfg (createAccessToken cfg u now) now =
      Except.ok (createAccessToken cfg u now).claims ∧
    validateToken cfg (createRefreshToken cfg u now) now =
      Except.ok (createRefreshToken cfg u now).claims ∧
    (createRefreshToken cfg u now).claims =
      { (createAccessToken cfg u now).claims with
          exp := now + cfg.jwtRefreshExpireSeconds } := by
  refine ⟨?_, ?_, rfl⟩ <;>
    simp [validateToken, createAccessToken, createRefreshToken, Alg.isHMAC,
      Config.jwtExpireSeconds, Config.jwtRefreshExpireSeconds] <;>
    omega

/-- C1 witness: the amended theorem at a concrete configuration and user. -/
theorem token_kinds_not_distinguished_witness :
    (0 : Int) < cfg0.jwtExpireMinutes ∧ (0 : Int) < cfg0.jwtRefreshExpireDays ∧
    (validateToken cfg0 (createAccessToken cfg0 user0 0) 0 =
      Except.ok (createAccessToken cfg0 user0 0).claims ∧
    validateToken cfg0 (createRefreshToken cfg0 user0 0) 0 =
      Except.ok (createRefreshToken cfg0 user0 0).claims ∧
    (createRefreshToken cfg0 user0 0).claims =
      { (createAccessToken cfg0 user0 0).claims with
          exp := 0 + cfg0.jwtRefreshExpireSeconds }) :=
  ⟨by decide, by decide,
    token_kinds_not_distinguished cfg0 user0 0 (by decide) (by decide)⟩

/-! ### C2 — login timing equalisation -/

/-- C2.  The source's own comment says the password check runs whether or
not the user exists, but the condition `err != nil ||
!auth.CheckPassword(…)` short-circuits on the not-found error: at the
concrete input below (no user with the requested email, and an oracle that
would accept any password) the handler answers 401 with zero bcrypt
invocations — the fake-hash verify on the not-found path is dead code. -/
theorem login_unknown_email_skips_password_check :
    login cfg0 (fun _ _ => true) [user0]
      { email := "ghost@x.io", password := "pw" } 0 =
      { status := 401, errorCode := some "invalid_credentials", body := none,
        cookie := none, bcryptCalls := 0 } := by
  rfl

/-! ### C3 — MFA login gating -/

/-- C3 (counterexample).  `Handler.Login` never consults `MFAEnabled`: at the
concrete input below a user with MFA enabled logs in with a matching
password and immediately receives status 200, the `access_token` cookie and
the token body — no intermediate `mfa_required` payload exists. -/
theorem login_mfa_user_gets_cookie :
    userMFA.mfaEnabled = true ∧
    (login cfg0 checkH1 [userMFA]
      { email := "m@x.io", password := "Abcd!234" } 0).status = 200 ∧
    (login cfg0 checkH1 [userMFA]
      { email := "m@x.io", password := "Abcd!234" } 0).cookie.isSome = true ∧
    (login cfg0 checkH1 [userMFA]
      { email := "m@x.io", password := "Abcd!234" } 0).body.isSome = true := by
  refine ⟨rfl, rfl, rfl, rfl⟩

/-- C3 (amended).  On every password match the login handler issues the
tokens and sets the auth cookie directly, whatever the user's MFA flag: the
handler has no MFA branch. -/
theorem login_ignores_mfa (cfg : Config) (check : String → String → Bool)
    (db : List User) (req : LoginRequest) (now : Int) (u : User)
    (hu : getUserByEmail db req.email = some u)
    (hc : check req.password u.passwordHash = true) :
    (login cfg check db req now).status = 200 ∧
    (login cfg check db req now).cookie =
      some { name := "access_token", value := createAccessToken cfg u now,
             httpOnly := true, maxAge := cfg.jwtExpireMinutes * 60 } ∧
    (login cfg check db req now).body =
      some { accessToken := createAccessToken cfg u now, tokenType := "bearer",
             refreshToken := createRefreshToken cfg u now,
             expiresIn := cfg.jwtExpireMinutes * 60 } := by
  simp [login, hu, hc]

/-- C3 witness: the amended theorem at the MFA-enabled user. -/
theorem login_ignores_mfa_witness :
    getUserByEmail [userMFA] "m@x.io" = some userMFA ∧
    checkH1 "Abcd!234" userMFA.passwordHash = true ∧
    ((login cfg0 checkH1 [userMFA]
        { email := "m@x.io", password := "Abcd!234" } 0).status = 200 ∧
      (login cfg0 checkH1 [userMFA]
        { email := "m@x.io", password := "Abcd!234" } 0).cookie =
        some { name := "access_token", value := createAccessToken cfg0 userMFA 0,
               httpOnly := true, maxAge := cfg0.jwtExpireMinutes * 60 } ∧
      (login cfg0 checkH1 [userMFA]
        { email := "m@x.io", password := "Abcd!234" } 0).body =
        some { accessToken := createAccessToken cfg0 userMFA 0, tokenType := "bearer",
               refreshToken := createRefreshToken cfg0 userMFA 0,
               expiresIn := cfg0.jwtExpireMinutes * 60 }) :=
  ⟨by decide, by decide,
    login_ignores_mfa cfg0 checkH1 [userMFA]
      { email := "m@x.io", password := "Abcd!234" } 0 userMFA
      (by decide) (by decide)⟩

/-! ### C4 — active-user gating in the auth middleware -/

/-- C4 (counterexample).  `Auth.Middleware` looks the user up with
`GetUserByID` and attaches whatever row comes back; nothing reads
`user.Active`.  At the concrete input below a deactivated user's valid token
gets the identity attached, and `RequireAuth` lets the request through with
200 where the claim requires 401. -/
theorem inactive_user_passes_require_auth :
    userInactive.active = false ∧
    middlewareIdentity cfg0 [userInactive]
      { bearer := some (createAccessToken cfg0 userInactive 0), cookie := none } 0 =
      some userInactive ∧
    requireAuthStatus (middlewareIdentity cfg0 [userInactive]
      { bearer := some (createAccessToken cfg0 userInactive 0), cookie := none } 0) =
      200 := by
  refine ⟨rfl, rfl, rfl⟩

/-- C4 (amended).  The middleware attaches the user whenever the bearer
token validates and `GetUserByID` finds the row, regardless of the `active`
flag; `RequireAuth` returns 401 exactly when no identity was attached. -/
theorem middleware_ignores_active_flag (cfg : Config) (db : List User)
    (r : MWRequest) (now : Int) (tok : Token) (u : User)
    (hb : r.bearer = some tok)
    (hv : validateToken cfg tok now = Except.ok tok.claims)
    (hu : getUserByID db tok.claims.userID = some u) :
    middlewareIdentity cfg db r now = some u ∧
    requireAuthStatus (middlewareIdentity cfg db r now) = 200 ∧
    requireAuthStatus none = 401 := by
  refine ⟨?_, ?_, rfl⟩ <;> simp [middlewareIdentity, hb, hv, hu, requireAuthStatus]

/-- C4 witness: the amended theorem at the deactivated user's token. -/
theorem middleware_ignores_active_flag_witness :
    (MWRequest.mk (some (createAccessToken cfg0 userInactive 0)) none).bearer =
      some (createAccessToken cfg0 userInactive 0) ∧
    validateToken cfg0 (createAccessToken cfg0 userInactive 0) 0 =
      Except.ok (createAccessToken cfg0 userInactive 0).claims ∧
    getUserByID [userInactive] (createAccessToken cfg0 userInactive 0).claims.userID =
      some userInactive ∧
    (middlewareIdentity cfg0 [userInactive]
        (MWRequest.mk (some (createAccessToken cfg0 userInactive 0)) none) 0 =
        some userInactive ∧
      requireAuthStatus (middlewareIdentity cfg0 [userInactive]
        (MWRequest.mk (some (createAccessToken cfg0 userInactive 0)) none) 0) = 200 ∧
      requireAuthStatus none = 401) :=
  ⟨rfl, rfl, rfl,
    middleware_ignores_active_flag cfg0 [userInactive]
      (MWRequest.mk (some (createAccessToken cfg0 userInactive 0)) none) 0
      (createAccessToken cfg0 userInactive 0) userInactive rfl rfl rfl⟩

/-! ### C5 — OAuth state single use -/

/-- C5.  After `Store(s)`, the first `Validate(s)` returns true exactly when
the call is strictly before the stored expiry, and it removes the entry;
on any store whose entry for `s` is absent — in particular right after a
`Validate(s)` — `Validate(s)` returns false and leaves the store unchanged,
so by iteration every call after the first returns false until `s` is
stored again. -/
theorem oauth_state_single_use (s s2 : OAuthStates) (state : String)
    (t0 t1 t2 : Int) (h2 : s2 state = none) :
    (validateState (storeState s state t0) state t1).fst =
      decide (t1 < t0 + tenMinutesNs) ∧
    (validateState (storeState s state t0) state t1).snd state = none ∧
    (validateState s2 state t2).fst = false ∧
    (validateState s2 state t2).snd = s2 := by
  refine ⟨?_, ?_, ?_, ?_⟩
  · simp [validateState, storeState]
  · simp [validateState, storeState]
  · simp [validateState, h2]
  · simp [validateState, h2]

/-- C5 witness: store at time 0, consume successfully at time 1, and the
second consume (on the post-consume store, whose entry is gone) fails. -/
theorem oauth_state_single_use_witness :
    (validateState (storeState emptyStates "s" 0) "s" 1).snd "s" = none ∧
    ((validateState (storeState emptyStates "s" 0) "s" 1).fst =
        decide ((1 : Int) < 0 + tenMinutesNs) ∧
      (validateState (storeState emptyStates "s" 0) "s" 1).snd "s" = none ∧
      (validateState ((validateState (storeState emptyStates "s" 0) "s" 1).snd) "s" 2).fst =
        false ∧
      (validateState ((validateState (storeState emptyStates "s" 0) "s" 1).snd) "s" 2).snd =
        (validateState (storeState emptyStates "s" 0) "s" 1).snd) :=
  ⟨by decide,
    oauth_state_single_use emptyStates
      ((validateState (storeState emptyStates "s" 0) "s" 1).snd) "s" 0 1 2 (by decide)⟩

/-! ### C7 — session endpoints without the cache -/

/-- C7.  With an authenticated user and `h.sessions == nil`, the listing
endpoint answers 200 with an empty list and the explanatory message, and
both mutating endpoints answer 503 `unavailable`; in each case the cache
state is returned untouched (the nil branch runs before any session
operation). -/
theorem session_endpoints_degrade_without_cache (u : User) (st : RedisState)
    (sessionID currentSessionID : String) (hsid : sessionID ≠ "") :
    listSessionsHandler (some u) none st =
      ({ status := 200, errorCode := none, sessions := some [],
         message := some "Session management requires Redis",
         revoked := none, revokedAll := none }, st) ∧
    revokeSessionHandler (some u) none st sessionID =
      ({ status := 503, errorCode := some "unavailable", sessions := none,
         message := none, revoked := none, revokedAll := none }, st) ∧
    revokeAllSessionsHandler (some u) none st currentSessionID =
      ({ status := 503, errorCode := some "unavailable", sessions := none,
         message := none, revoked := none, revokedAll := none }, st) := by
  refine ⟨rfl, ?_, rfl⟩
  simp [revokeSessionHandler, hsid]

/-- C7 witness: the degraded responses at a concrete user, cache state and
session id. -/
theorem session_endpoints_degrade_without_cache_witness :
    "abc" ≠ "" ∧
    (listSessionsHandler (some user0) none emptyRedis =
      ({ status := 200, errorCode := none, sessions := some [],
         message := some "Session management requires Redis",
         revoked := none, revokedAll := none }, emptyRedis) ∧
    revokeSessionHandler (some user0) none emptyRedis "abc" =
      ({ status := 503, errorCode := some "unavailable", sessions := none,
         message := none, revoked := none, revokedAll := none }, emptyRedis) ∧
    revokeAllSessionsHandler (some user0) none emptyRedis "cur" =
      ({ status := 503, errorCode := some "unavailable", sessions := none,
         message := none, revoked := none, revokedAll := none }, emptyRedis)) :=
  ⟨by decide,
    session_endpoints_degrade_without_cache user0 emptyRedis "abc" "cur" (by decide)⟩

/-! ### C9 — the nil session manager is a total no-op -/

/-- C9.  Every `SessionManager` operation guards `if m == nil` first: on the
nil receiver each of the seven operations returns nil data and a nil error
for all arguments and leaves the cache state exactly as given, so callers
need no nil check of their own. -/
theorem nil_session_manager_noop :
    (∀ st now newID uid dev ip ua,
      createSession none st now newID uid dev ip ua = ((none, none), st)) ∧
    (∀ st sid, getSession none st sid = (none, none)) ∧
    (∀ st now sid, updateLastActive none st now sid = (none, st)) ∧
    (∀ st uid, listUserSessions none st uid = ((none, none), st)) ∧
    (∀ st sid uid, revokeSession none st sid uid = (none, st)) ∧
    (∀ st uid keep, revokeAllSessions none st uid keep = (none, st)) ∧
    (∀ st uid, revokeAllUserSessions none st uid = (none, st)) :=
  ⟨fun _ _ _ _ _ _ _ => rfl, fun _ _ => rfl, fun _ _ _ => rfl, fun _ _ => rfl,
    fun _ _ _ => rfl, fun _ _ _ => rfl, fun _ _ => rfl⟩

/-! ### C8 — password-policy boundary -/

/-- C8.  `validatePassword` (Go `len`, i.e. UTF-8 byte length) rejects every
password of length 7 or less; accepts every password of length 8 carrying at
least one uppercase letter, one lowercase letter, one digit and one special
character from the fixed set; and rejects any password missing one of the
four classes. -/
theorem password_policy_boundary :
    (∀ p : List Char, byteLen p ≤ 7 → (validatePassword p).isSome = true) ∧
    (∀ p : List Char, byteLen p = 8 →
      p.any isUpperGo = true → p.any isLowerGo = true →
      p.any isDigitGo = true → p.any isSpecialGo = true →
      validatePassword p = none) ∧
    (∀ p : List Char, p.any isUpperGo = false → (validatePassword p).isSome = true) ∧
    (∀ p : List Char, p.any isLowerGo = false → (validatePassword p).isSome = true) ∧
    (∀ p : List Char, p.any isDigitGo = false → (validatePassword p).isSome = true) ∧
    (∀ p : List Char, p.any isSpecialGo = false → (validatePassword p).isSome = true) := by
  refine ⟨?_, ?_, ?_, ?_, ?_, ?_⟩
  · intro p h
    unfold validatePassword
    rw [if_pos (by omega)]
    rfl
  · intro p hlen hU hL hD hS
    unfold validatePassword
    rw [if_neg (by omega)]
    simp [hU, hL, hD, hS]
  · intro p h
    unfold validatePassword
    by_cases hlen : byteLen p < 8
    · rw [if_pos hlen]; rfl
    · rw [if_neg hlen]; simp [h]
  · intro p h
    unfold validatePassword
    by_cases hlen : byteLen p < 8
    · rw [if_pos hlen]; rfl
    · rw [if_neg hlen]
      simp [h]
      repeat' split
      all_goals rfl
  · intro p h
    unfold validatePassword
    by_cases hlen : byteLen p < 8
    · rw [if_pos hlen]; rfl
    · rw [if_neg hlen]
      simp [h]
      repeat' split
      all_goals rfl
  · intro p h
    unfold validatePassword
    by_cases hlen : byteLen p < 8
    · rw [if_pos hlen]; rfl
    · rw [if_neg hlen]
      simp [h]
      repeat' split
      all_goals rfl

/-! ### Rate-limiter lemmas shared by the sliding-window claims -/

/-- A bucket whose stamps are all inside the window is untouched by the trim. -/
theorem trimBucket_eq_self {now : Int} {b : List Int}
    (h : ∀ x ∈ b, now - minuteNs < x) : trimBucket now b = b := by
  unfold trimBucket
  exact List.filter_eq_self.mpr fun x hx => by simpa using h x hx

/-- Trimming at a later instant subsumes an earlier trim. -/
theorem trimBucket_trimBucket {t1 t2 : Int} (h : t1 ≤ t2) (b : List Int) :
    trimBucket t2 (trimBucket t1 b) = trimBucket t2 b := by
  unfold trimBucket
  rw [List.filter_filter]
  refine List.filter_congr fun x hx => ?_
  by_cases h2 : t2 - minuteNs < x
  · have h1 : t1 - minuteNs < x := by omega
    simp [h1, h2]
  · simp [h2]

/-- While the bucket and all request instants stay inside one window of some
base instant and the bucket has room, every request is admitted and simply
appended. -/
theorem bucketRun_all_admitted (limit : Nat) (t0 : Int) (ts : List Int) :
    ∀ b : List Int,
      (∀ x ∈ b, t0 ≤ x ∧ x < t0 + minuteNs) →
      (∀ t ∈ ts, t0 ≤ t ∧ t < t0 + minuteNs) →
      b.length + ts.length ≤ limit →
      bucketRun limit b ts = (List.replicate ts.length true, b ++ ts) := by
  induction ts with
  | nil =>
    intro b _ _ _
    simp [bucketRun]
  | cons t ts ih =>
    intro b hb hts hlen
    have ht := hts t (List.mem_cons_self t ts)
    have hfilter : trimBucket t b = b :=
      trimBucket_eq_self fun x hx => by
        have h1 := (hb x hx).1
        omega
    have hlt : ¬ (limit ≤ b.length) := by
      simp only [List.length_cons] at hlen
      omega
    have hstep : bucketStep limit b t = (true, b ++ [t]) := by
      unfold bucketStep
      simp [hfilter, hlt]
    have happ := ih (b ++ [t])
      (fun x hx => by
        rcases List.mem_append.mp hx with hx | hx
        · exact hb x hx
        · simp only [List.mem_singleton] at hx
          subst hx
          exact ht)
      (fun x hx => hts x (List.mem_cons_of_mem _ hx))
      (by simp only [List.length_append, List.length_cons,
            List.length_nil] at hlen ⊢; omega)
    simp [bucketRun, hstep, happ, List.replicate_succ]

/-- A run of requests sharing one non-bypassed request template acts on the
client's bucket exactly as `bucketRun`, leaves every other key alone, and
maps admissions to pass-through and refusals to the 429 response. -/
theorem rlRun_const_req (limit : Nat) (r : RLRequest)
    (hpath : ¬ (r.path = "/health" ∨ r.path = "/metrics")) (ts : List Int) :
    ∀ st : RLBuckets,
      (rlRun limit st (ts.map (fun t => (r, t)))).fst =
        (bucketRun limit (st (clientKey r)) ts).fst.map
          (fun ok => if ok then none else some resp429) ∧
      (rlRun limit st (ts.map (fun t => (r, t)))).snd (clientKey r) =
        (bucketRun limit (st (clientKey r)) ts).snd ∧
      ∀ k, k ≠ clientKey r →
        (rlRun limit st (ts.map (fun t => (r, t)))).snd k = st k := by
  induction ts with
  | nil =>
    intro st
    exact ⟨rfl, rfl, fun _ _ => rfl⟩
  | cons t ts ih =>
    intro st
    have hmw : rlMiddleware limit st r t =
        ((if (bucketStep limit (st (clientKey r)) t).fst then none else some resp429),
          fun k => if k = clientKey r then (bucketStep limit (st (clientKey r)) t).snd
                   else st k) := by
      unfold rlMiddleware
      rw [if_neg hpath]
      by_cases hs : (bucketStep limit (st (clientKey r)) t).fst <;> simp [hs]
    obtain ⟨ih1, ih2, ih3⟩ := ih
      (fun k => if k = clientKey r then (bucketStep limit (st (clientKey r)) t).snd
                else st k)
    refine ⟨?_, ?_, ?_⟩
    · simp only [List.map_cons, rlRun, hmw, bucketRun]
      rw [ih1]
      simp
    · simp only [List.map_cons, rlRun, hmw, bucketRun]
      rw [ih2]
      simp
    · intro k hk
      simp only [List.map_cons, rlRun, hmw]
      rw [ih3 k hk]
      simp [hk]

/-! ### C6 — sliding-window rate limiting -/

/-- C6.  A fresh client that issues `N+1` requests inside one 60-second
window when the limit is `N` has its first `N` admitted and exactly the
`(N+1)`-th refused with status 429, `Retry-After: 60` and code
`rate_limit_exceeded`; a further request at least 60 seconds after the first
is admitted again (the first stamp has left the window, and refusals stored
no stamp). -/
theorem rate_limiter_sliding_window (N : Nat) (r : RLRequest) (st0 : RLBuckets)
    (t0 : Int) (rest : List Int) (tLast tNext : Int)
    (hpath : ¬ (r.path = "/health" ∨ r.path = "/metrics"))
    (hlen : rest.length + 1 = N)
    (hwin : ∀ t ∈ t0 :: rest, t0 ≤ t ∧ t < t0 + minuteNs)
    (hlast : t0 ≤ tLast ∧ tLast < t0 + minuteNs)
    (hnext : t0 + minuteNs ≤ tNext)
    (hfresh : st0 (clientKey r) = []) :
    (rlRun N st0 ((t0 :: rest).map (fun t => (r, t)))).fst =
      List.replicate N none ∧
    (rlMiddleware N (rlRun N st0 ((t0 :: rest).map (fun t => (r, t)))).snd
      r tLast).fst = some resp429 ∧
    (rlMiddleware N
      (rlMiddleware N (rlRun N st0 ((t0 :: rest).map (fun t => (r, t)))).snd
        r tLast).snd r tNext).fst = none := by
  obtain ⟨hfst, hsnd, _⟩ := rlRun_const_req N r hpath (t0 :: rest) st0
  set stR := (rlRun N st0 ((t0 :: rest).map (fun t => (r, t)))).snd with hstR
  have hrun : bucketRun N (st0 (clientKey r)) (t0 :: rest) =
      (List.replicate N true, t0 :: rest) := by
    rw [hfresh]
    have h := bucketRun_all_admitted N t0 (t0 :: rest) []
      (by intro x hx; simp at hx)
      hwin
      (by simp only [List.length_nil, List.length_cons]; omega)
    simpa [hlen] using h
  have hbucket : stR (clientKey r) = t0 :: rest := by
    rw [hsnd, hrun]
  -- the (N+1)-th request: everything is still in the window, so the trim
  -- keeps all N stamps and the limit check refuses
  have htrim : trimBucket tLast (t0 :: rest) = t0 :: rest :=
    trimBucket_eq_self fun x hx => by
      have h1 := (hwin x hx).1
      omega
  have hNle : N ≤ rest.length + 1 := by omega
  have hstepLast : bucketStep N (t0 :: rest) tLast = (false, t0 :: rest) := by
    unfold bucketStep
    simp [htrim, hNle]
  have hmwLast : rlMiddleware N stR r tLast =
      (some resp429,
        fun k => if k = clientKey r then t0 :: rest else stR k) := by
    unfold rlMiddleware
    rw [if_neg hpath]
    simp [hbucket, hstepLast]
  -- the later request: the first stamp falls out of the window, so at most
  -- N-1 stamps survive the trim and the request is admitted
  have hdrop : trimBucket tNext (t0 :: rest) = trimBucket tNext rest := by
    unfold trimBucket
    refine List.filter_cons_of_neg ?_
    simp only [decide_eq_true_eq]
    omega
  have hle : (trimBucket tNext (t0 :: rest)).length < N := by
    rw [hdrop]
    have hfl : (trimBucket tNext rest).length ≤ rest.length :=
      List.length_filter_le _ _
    omega
  have hokStep : bucketStep N (t0 :: rest) tNext =
      (true, trimBucket tNext (t0 :: rest) ++ [tNext]) := by
    unfold bucketStep
    simp [Nat.not_le.mpr hle]
  refine ⟨?_, ?_, ?_⟩
  · rw [hfst, hrun]
    simp
  · rw [hmwLast]
  · rw [hmwLast]
    unfold rlMiddleware
    rw [if_neg hpath]
    simp [hokStep]

/-- C6 witness: limit 1, two requests at instants 0 and 1 (the second
refused with the 429 response), and a request one minute later admitted. -/
theorem rate_limiter_sliding_window_witness :
    (¬ ("/login" = "/health" ∨ "/login" = "/metrics")) ∧
    ((rlRun 1 (fun _ => ([] : List Int))
        (([0] : List Int).map (fun t => (RLRequest.mk "/login" "1.2.3.4" "", t)))).fst =
      List.replicate 1 none ∧
    (rlMiddleware 1 (rlRun 1 (fun _ => ([] : List Int))
        (([0] : List Int).map (fun t => (RLRequest.mk "/login" "1.2.3.4" "", t)))).snd
      (RLRequest.mk "/login" "1.2.3.4" "") 1).fst = some resp429 ∧
    (rlMiddleware 1
      (rlMiddleware 1 (rlRun 1 (fun _ => ([] : List Int))
        (([0] : List Int).map (fun t => (RLRequest.mk "/login" "1.2.3.4" "", t)))).snd
        (RLRequest.mk "/login" "1.2.3.4" "") 1).snd
      (RLRequest.mk "/login" "1.2.3.4" "") minuteNs).fst = none) :=
  ⟨by decide,
    rate_limiter_sliding_window 1 (RLRequest.mk "/login" "1.2.3.4" "")
      (fun _ => []) 0 [] 1 minuteNs (by decide) rfl
      (by intro t ht; simp at ht; subst ht; constructor <;> decide)
      (by constructor <;> decide) (by decide) rfl⟩

/-- A request refused with 429 was not bypassed, found its trimmed bucket at
or over the limit, and stored exactly the trimmed bucket — no new stamp. -/
theorem rlMiddleware_reject {limit : Nat} {st : RLBuckets} {r : RLRequest}
    {now : Int} (hrej : (rlMiddleware limit st r now).fst = some resp429) :
    ¬ (r.path = "/health" ∨ r.path = "/metrics") ∧
    limit ≤ (trimBucket now (st (clientKey r))).length ∧
    (rlMiddleware limit st r now).snd =
      fun k => if k = clientKey r then trimBucket now (st (clientKey r))
               else st k := by
  by_cases hp : r.path = "/health" ∨ r.path = "/metrics"
  · exfalso
    unfold rlMiddleware at hrej
    rw [if_pos hp] at hrej
    exact Option.noConfusion hrej
  · by_cases hc : limit ≤ (trimBucket now (st (clientKey r))).length
    · have hstep : bucketStep limit (st (clientKey r)) now =
          (false, trimBucket now (st (clientKey r))) := by
        unfold bucketStep
        simp [hc]
      refine ⟨hp, hc, ?_⟩
      unfold rlMiddleware
      rw [if_neg hp]
      simp [hstep]
    · exfalso
      have hstep : bucketStep limit (st (clientKey r)) now =
          (true, trimBucket now (st (clientKey r)) ++ [now]) := by
        unfold bucketStep
        simp [hc]
      unfold rlMiddleware at hrej
      rw [if_neg hp] at hrej
      simp [hstep] at hrej

/-- A non-bypassed request that was admitted found its trimmed bucket under
the limit and stored the trimmed bucket with its own stamp appended. -/
theorem rlMiddleware_admit {limit : Nat} {st : RLBuckets} {r : RLRequest}
    {now : Int} (hp : ¬ (r.path = "/health" ∨ r.path = "/metrics"))
    (hadm : (rlMiddleware limit st r now).fst = none) :
    ¬ limit ≤ (trimBucket now (st (clientKey r))).length ∧
    (rlMiddleware limit st r now).snd =
      fun k => if k = clientKey r then trimBucket now (st (clientKey r)) ++ [now]
               else st k := by
  by_cases hc : limit ≤ (trimBucket now (st (clientKey r))).length
  · exfalso
    have hstep : bucketStep limit (st (clientKey r)) now =
        (false, trimBucket now (st (clientKey r))) := by
      unfold bucketStep
      simp [hc]
    unfold rlMiddleware at hadm
    rw [if_neg hp] at hadm
    simp [hstep] at hadm
  · have hstep : bucketStep limit (st (clientKey r)) now =
        (true, trimBucket now (st (clientKey r)) ++ [now]) := by
      unfold bucketStep
      simp [hc]
    refine ⟨hc, ?_⟩
    unfold rlMiddleware
    rw [if_neg hp]
    simp [hstep]

/-! ### C10 — rejected requests consume no quota -/

/-- C10.  A stamp is appended to a client's bucket only on admission: a 429
refusal stores exactly the trimmed old bucket (a sublist of what was there —
nothing added), an admission stores the trimmed bucket plus the request's
own stamp, and a refused attempt followed by any later request produces
exactly the response and state the later request would have produced alone —
so retrying while over the limit never extends the wait. -/
theorem rejected_requests_consume_no_quota :
    (∀ (limit : Nat) (st : RLBuckets) (r : RLRequest) (now : Int),
      (rlMiddleware limit st r now).fst = some resp429 →
      (rlMiddleware limit st r now).snd (clientKey r) =
        trimBucket now (st (clientKey r)) ∧
      ((rlMiddleware limit st r now).snd (clientKey r)).Sublist
        (st (clientKey r))) ∧
    (∀ (limit : Nat) (st : RLBuckets) (r : RLRequest) (now : Int),
      ¬ (r.path = "/health" ∨ r.path = "/metrics") →
      (rlMiddleware limit st r now).fst = none →
      (rlMiddleware limit st r now).snd (clientKey r) =
        trimBucket now (st (clientKey r)) ++ [now]) ∧
    (∀ (limit : Nat) (st : RLBuckets) (r : RLRequest) (t1 t2 : Int),
      t1 ≤ t2 →
      (rlMiddleware limit st r t1).fst = some resp429 →
      (rlMiddleware limit (rlMiddleware limit st r t1).snd r t2).fst =
        (rlMiddleware limit st r t2).fst ∧
      ∀ k, (rlMiddleware limit (rlMiddleware limit st r t1).snd r t2).snd k =
        (rlMiddleware limit st r t2).snd k) := by
  refine ⟨?_, ?_, ?_⟩
  · intro limit st r now hrej
    obtain ⟨_, _, hsnd⟩ := rlMiddleware_reject hrej
    rw [hsnd]
    simp only [if_pos rfl]
    refine ⟨rfl, ?_⟩
    unfold trimBucket
    exact List.filter_sublist _
  · intro limit st r now hp hadm
    obtain ⟨_, hsnd⟩ := rlMiddleware_admit hp hadm
    rw [hsnd]
    simp
  · intro limit st r t1 t2 h12 hrej
    obtain ⟨hp, _, hsnd⟩ := rlMiddleware_reject hrej
    have hbs : bucketStep limit (trimBucket t1 (st (clientKey r))) t2 =
        bucketStep limit (st (clientKey r)) t2 := by
      unfold bucketStep
      rw [trimBucket_trimBucket h12]
    constructor
    · rw [hsnd]
      unfold rlMiddleware
      rw [if_neg hp, if_neg hp]
      by_cases hc : (bucketStep limit (st (clientKey r)) t2).fst = true <;>
        simp [hbs, hc]
    · intro k
      rw [hsnd]
      unfold rlMiddleware
      rw [if_neg hp, if_neg hp]
      by_cases hk : k = clientKey r <;>
        by_cases hc : (bucketStep limit (st (clientKey r)) t2).fst = true <;>
          simp [hbs, hk, hc]

/-- C10 witness: a limit-1 client with one fresh stamp — the refusal at
instant 1 stores the trimmed bucket unchanged, an admission appends, and a
refusal followed by a request a minute later behaves as that later request
alone. -/
theorem rejected_requests_consume_no_quota_witness :
    (rlMiddleware 1 (fun _ => ([0] : List Int))
        (RLRequest.mk "/login" "1.2.3.4" "") 1).fst = some resp429 ∧
    ((rlMiddleware 1 (fun _ => ([0] : List Int))
        (RLRequest.mk "/login" "1.2.3.4" "") 1).snd
        (clientKey (RLRequest.mk "/login" "1.2.3.4" "")) =
      trimBucket 1 ((fun _ => ([0] : List Int))
        (clientKey (RLRequest.mk "/login" "1.2.3.4" ""))) ∧
      ((rlMiddleware 1 (fun _ => ([0] : List Int))
        (RLRequest.mk "/login" "1.2.3.4" "") 1).snd
        (clientKey (RLRequest.mk "/login" "1.2.3.4" ""))).Sublist
        ((fun _ => ([0] : List Int))
          (clientKey (RLRequest.mk "/login" "1.2.3.4" "")))) ∧
    ((1 : Int) ≤ 60000000001 ∧
      ((rlMiddleware 1 (rlMiddleware 1 (fun _ => ([0] : List Int))
          (RLRequest.mk "/login" "1.2.3.4" "") 1).snd
          (RLRequest.mk "/login" "1.2.3.4" "") 60000000001).fst =
        (rlMiddleware 1 (fun _ => ([0] : List Int))
          (RLRequest.mk "/login" "1.2.3.4" "") 60000000001).fst ∧
      ∀ k, (rlMiddleware 1 (rlMiddleware 1 (fun _ => ([0] : List Int))
          (RLRequest.mk "/login" "1.2.3.4" "") 1).snd
          (RLRequest.mk "/login" "1.2.3.4" "") 60000000001).snd k =
        (rlMiddleware 1 (fun _ => ([0] : List Int))
          (RLRequest.mk "/login" "1.2.3.4" "") 60000000001).snd k)) :=
  ⟨by decide,
    rejected_requests_consume_no_quota.1 1 (fun _ => [0])
      (RLRequest.mk "/login" "1.2.3.4" "") 1 (by decide),
    by decide,
    rejected_requests_consume_no_quota.2.2 1 (fun _ => [0])
      (RLRequest.mk "/login" "1.2.3.4" "") 1 60000000001 (by decide) (by decide)⟩

/-- C8 witness: the boundary inputs — the 7-byte `Abc!123` rejected, the
8-byte `Abcd!234` accepted, and each single-class-missing variant
rejected. -/
theorem password_policy_boundary_witness :
    byteLen "Abc!123".toList ≤ 7 ∧
    (validatePassword "Abc!123".toList).isSome = true ∧
    byteLen "Abcd!234".toList = 8 ∧
    validatePassword "Abcd!234".toList = none ∧
    (validatePassword "abcd!234".toList).isSome = true ∧
    (validatePassword "ABCD!234".toList).isSome = true ∧
    (validatePassword "Abcdefg!".toList).isSome = true ∧
    (validatePassword "Abcd1234".toList).isSome = true :=
  ⟨by decide,
    password_policy_boundary.1 "Abc!123".toList (by decide),
    by decide,
    password_policy_boundary.2.1 "Abcd!234".toList (by decide) (by decide)
      (by decide) (by decide) (by decide),
    password_policy_boundary.2.2.1 "abcd!234".toList (by decide),
    password_policy_boundary.2.2.2.1 "ABCD!234".toList (by decide),
    password_policy_boundary.2.2.2.2.1 "Abcdefg!".toList (by decide),
    password_policy_boundary.2.2.2.2.2 "Abcd1234".toList (by decide)⟩

end Gateway
